import Mathlib

/-!
Verification of the Swiss-Ephemeris-Engine core (`swiss_calc_engine/engine.py`
and `swiss_calc_engine/service.py`) against its natural-language specification.

The engine is embedded shallowly:
* angles, Julian Days and speeds are rationals (`ℚ`);
* calls into the external `swisseph` library (`swe.calc_ut`, `swe.houses`,
  `swe.get_ayanamsa_ut`, `swe.julday`) are modelled as oracle functions
  collected in `SweEnv`; the global sidereal mode set by `swe.set_sid_mode`
  is baked into the oracles, which is sound because the mode is fixed for the
  duration of one request;
* Python's float modulo `x % 360` is `pymod x 360` over `ℚ`;
* fallible Python code (`raise` / `HTTPException`) returns `Except String`.
-/

/-- Python's `x % m` for `m > 0`: the representative of `x` in `[0, m)`. -/
def pymod (x m : ℚ) : ℚ := x - m * ⌊x / m⌋

theorem pymod_nonneg (x m : ℚ) (hm : 0 < m) : 0 ≤ pymod x m := by
  have h := Int.floor_le (x / m)
  have h2 : m * (⌊x / m⌋ : ℚ) ≤ m * (x / m) := by
    exact mul_le_mul_of_nonneg_left h (le_of_lt hm)
  have h3 : m * (x / m) = x := by
    field_simp
  unfold pymod
  nlinarith

theorem pymod_lt (x m : ℚ) (hm : 0 < m) : pymod x m < m := by
  have h := Int.lt_floor_add_one (x / m)
  have h2 : m * (x / m) < m * ((⌊x / m⌋ : ℚ) + 1) := by
    exact mul_lt_mul_of_pos_left h hm
  have h3 : m * (x / m) = x := by
    field_simp
  unfold pymod
  nlinarith

/-! ## Swiss Ephemeris flag constants (values from the C headers, as pinned
    in `engine.py` lines 30-35 and 167-168). -/

def SEFLG_SWIEPH : Nat := 2
def SEFLG_MOSEPH : Nat := 4
def SEFLG_SPEED : Nat := 256
def SEFLG_TOPOCTR : Nat := 32768
def SEFLG_SIDEREAL : Nat := 65536

/-- `flags & ~SEFLG_SIDEREAL` from `_swe_calc`.  Since `flags &&& m` is a
    sub-mask of `flags`, subtracting it clears exactly the bits of `m`. -/
def stripSidereal (flags : Nat) : Nat := flags - (flags &&& SEFLG_SIDEREAL)

/-! ## The ephemeris accessor `_swe_calc` -/

/-- The 6-vector returned by one `swe.calc_ut` call:
    longitude, latitude, distance and their speeds. -/
structure PosVec where
  lon : ℚ
  lat : ℚ
  dist : ℚ
  spdLon : ℚ
  spdLat : ℚ
  spdDist : ℚ
deriving Repr, DecidableEq

/-- Raw result of one `swe.calc_ut` call: the position vector and the
    return code (`ret < 0` means failure). -/
structure CalcResult where
  pos : PosVec
  ret : Int
deriving Repr, DecidableEq

/-- Oracle type for the external `swe.calc_ut`: Julian Day, body id, flags. -/
def CalcUtFn : Type := ℚ → Nat → Nat → CalcResult

/-- Result of `_swe_calc`: position, return code and backend tag. -/
structure SweCalcOut where
  pos : PosVec
  ret : Int
  backend : String
deriving Repr, DecidableEq

/-- `_swe_calc` (engine.py lines 136-149): try the default method, then the
    file-based Swiss method, then Moshier with the sidereal flag stripped. -/
def swe_calc (calc_ut : CalcUtFn) (jd : ℚ) (body : Nat) (flags : Nat) : SweCalcOut :=
  let r1 := calc_ut jd body flags
  let s1 : SweCalcOut :=
    if r1.ret < 0 then
      let r2 := calc_ut jd body (flags ||| SEFLG_SWIEPH)
      { pos := r2.pos, ret := r2.ret,
        backend := if r2.ret ≥ 0 then "SWIEPH" else "DEFAULT" }
    else
      { pos := r1.pos, ret := r1.ret, backend := "SWIEPH" }
  if s1.ret < 0 then
    let r3 := calc_ut jd body (stripSidereal flags ||| SEFLG_MOSEPH)
    { pos := r3.pos, ret := r3.ret,
      backend := if r3.ret ≥ 0 then "MOSEPH" else s1.backend }
  else s1

/-! ## The planetary position calculator `get_planetary_positions` -/

/-- `PLANETS` (engine.py lines 38-51), by Swiss Ephemeris body ids:
    Sun=0 .. Pluto=9, Mean Node=10, True Node=11. -/
def PLANETS : List Nat := [0, 1, 2, 3, 4, 5, 6, 7, 8, 9, 10, 11]

/-- `PLANET_NAMES` (engine.py lines 53-66); out-of-range ids fall back to the
    decimal string, mirroring `PLANET_NAMES.get(p, str(p))` at line 183. -/
def PLANET_NAMES : Nat → String
  | 0 => "Sun"
  | 1 => "Moon"
  | 2 => "Mercury"
  | 3 => "Venus"
  | 4 => "Mars"
  | 5 => "Jupiter"
  | 6 => "Saturn"
  | 7 => "Uranus"
  | 8 => "Neptune"
  | 9 => "Pluto"
  | 10 => "Mean Node"
  | 11 => "True Node"
  | n => Nat.repr n

/-- One entry of the per-body result map (the dict built at lines 186-194). -/
structure PositionRecord where
  longitude : ℚ
  latitude : ℚ
  distance : ℚ
  speed_longitude : ℚ
  speed_latitude : ℚ
  speed_distance : ℚ
  is_retrograde : Bool
deriving Repr, DecidableEq

/-- Build a `PositionRecord` from a raw position vector
    (`is_retrograde = bool(spd_lon < 0)`, line 193). -/
def positionRecordOf (p : PosVec) : PositionRecord :=
  { longitude := p.lon, latitude := p.lat, distance := p.dist,
    speed_longitude := p.spdLon, speed_latitude := p.spdLat,
    speed_distance := p.spdDist, is_retrograde := decide (p.spdLon < 0) }

/-- The `swe.set_topo(lon, lat, 0.0)` call happens exactly when both
    coordinates are provided (engine.py lines 173-176); `none` means the call
    is not made at all (the missing coordinate is never zero-filled). -/
def topoCall (lat lon : Option ℚ) : Option (ℚ × ℚ) :=
  match lat, lon with
  | some la, some lo => some (lo, la)
  | _, _ => none

/-- The flag word assembled at engine.py lines 169-176. -/
def planetFlags (sidereal : Bool) (lat lon : Option ℚ) : Nat :=
  let flags := SEFLG_SPEED
  let flags := if sidereal then flags ||| SEFLG_SIDEREAL else flags
  if (topoCall lat lon).isSome then flags ||| SEFLG_TOPOCTR else flags

/-- The per-body loop of `get_planetary_positions` (lines 178-194): on the
    first body whose accessor chain fails, raise `RuntimeError` naming it;
    otherwise accumulate the record and the backend tag in order. -/
def calcPlanets (calc_ut : CalcUtFn) (jd : ℚ) (flags : Nat) :
    List Nat → Except String (List (String × PositionRecord) × List String)
  | [] => .ok ([], [])
  | p :: rest =>
    let r := swe_calc calc_ut jd p flags
    if r.ret < 0 then
      .error ("Swiss Ephemeris calculation failed for planet " ++ PLANET_NAMES p)
    else
      match calcPlanets calc_ut jd flags rest with
      | .error e => .error e
      | .ok (xs, bs) => .ok ((PLANET_NAMES p, positionRecordOf r.pos) :: xs, r.backend :: bs)

/-- `get_planetary_positions` (engine.py lines 152-197).  The `ayanamsa`
    argument is only handed to the global `swe.set_sid_mode`, whose effect is
    baked into the `calc_ut` oracle; it is kept for signature fidelity. -/
def get_planetary_positions (calc_ut : CalcUtFn) (jd : ℚ) (sidereal : Bool)
    (_ayanamsa : Int) (lat lon : Option ℚ) :
    Except String (List (String × PositionRecord) × String) :=
  match calcPlanets calc_ut jd (planetFlags sidereal lat lon) PLANETS with
  | .error e => .error e
  | .ok (result, backends) =>
    .ok (result,
      if "SWIEPH" ∈ backends then "SWIEPH"
      else if "MOSEPH" ∈ backends then "MOSEPH" else "DEFAULT")

/-! ## The house/angle calculator `get_house_cusps` -/

/-- Oracle type for the external `swe.houses`: Julian Day, latitude,
    longitude, house-system byte; returns (cusps, ascmc). -/
def HousesFn : Type := ℚ → ℚ → ℚ → Char → List ℚ × List ℚ

/-- Oracle type for `swe.get_ayanamsa_ut` after `swe.set_sid_mode(id)`:
    ayanamsa identifier and Julian Day to ayanamsa offset in degrees. -/
def AyanamsaFn : Type := Int → ℚ → ℚ

/-- The `hsys` normalization of engine.py lines 206-213 for a string input:
    empty defaults to "P", otherwise the first character is ASCII-encoded
    (raising `UnicodeEncodeError` on a non-ASCII character). -/
def encode_hsys (hsys : String) : Except String Char :=
  let h := if hsys.length = 0 then "P" else hsys
  let c := h.front
  if c.toNat < 128 then .ok c else .error "UnicodeEncodeError"

/-- The houses dict built at engine.py lines 229-242. -/
structure HouseData where
  cusps : List ℚ
  ascendant : ℚ
  mc : ℚ
  vertex : Option ℚ
deriving Repr, DecidableEq

/-- Python list indexing `l[i]`: `IndexError` when out of range. -/
def listGet (l : List ℚ) (i : Nat) : Except String ℚ :=
  match l[i]? with
  | some x => .ok x
  | none => .error "IndexError"

/-- `get_house_cusps` (engine.py lines 199-246).  `env_ephe` models whether
    `EPHE_DIR` or `SWISS_EPHE_PATH` is set in the environment (line 245). -/
def get_house_cusps (houses : HousesFn) (get_ayanamsa_ut : AyanamsaFn)
    (env_ephe : Bool) (jd lat lon : ℚ) (hsys : String) (sidereal : Bool)
    (ayanamsa : Int) : Except String (HouseData × String) :=
  match encode_hsys hsys with
  | .error e => .error e
  | .ok hsys_byte =>
    let (cusps, ascmc) := houses jd lat lon hsys_byte
    let backend := if env_ephe then "SWIEPH" else "DEFAULT"
    if sidereal then
      let ayanamsa_value := get_ayanamsa_ut ayanamsa jd
      let adjusted_cusps := cusps.map (fun c => pymod (c - ayanamsa_value) 360)
      let adjusted_ascmc := ascmc.map (fun a => pymod (a - ayanamsa_value) 360)
      match listGet adjusted_ascmc 0, listGet adjusted_ascmc 1 with
      | .ok asc, .ok mcv =>
        .ok ({ cusps := adjusted_cusps, ascendant := asc, mc := mcv,
               vertex := adjusted_ascmc[5]? }, backend)
      | .error e, _ => .error e
      | _, .error e => .error e
    else
      match listGet ascmc 0, listGet ascmc 1 with
      | .ok asc, .ok mcv =>
        .ok ({ cusps := cusps, ascendant := asc, mc := mcv,
               vertex := ascmc[5]? }, backend)
      | .error e, _ => .error e
      | _, .error e => .error e

/-! ## The time resolver -/

/-- A Python `datetime`: either naive (no tzinfo) carrying its wall-clock
    value, or timezone-aware already reduced to its UTC instant.  The wall
    value abstracts the (year, .., second) tuple as a single rational. -/
inductive PyDateTime
  | naive (wall : ℚ)
  | aware (utc : ℚ)
deriving Repr, DecidableEq

/-- `dt.tzinfo is None`. -/
def PyDateTime.isNaive : PyDateTime → Bool
  | .naive _ => true
  | .aware _ => false

/-- `dt.replace(tzinfo=timezone.utc)` on a naive value reinterprets the wall
    clock as UTC; `astimezone(timezone.utc)` on an aware value is identity. -/
def PyDateTime.utcValue : PyDateTime → ℚ
  | .naive w => w
  | .aware u => u

/-- Oracles for the timezone machinery of engine.py lines 81-122:
    `support` is `_TIMEZONE_SUPPORT`, `timezone_at` is
    `TimezoneFinder().timezone_at` (already `none` on an exception), and
    `localize_to_utc` is `pytz.timezone(z).localize(dt).astimezone(utc)`
    with `.error` standing for the exception path. -/
structure TzEnv where
  support : Bool
  timezone_at : ℚ → ℚ → Option String
  localize_to_utc : String → ℚ → Except Unit ℚ

/-- `_detect_timezone` (engine.py lines 81-94). -/
def detect_timezone (tz : TzEnv) (lat lon : ℚ) : Option String :=
  if tz.support then tz.timezone_at lat lon else none

/-- `_convert_local_to_utc` (engine.py lines 97-122): convert a naive local
    datetime to UTC via the detected timezone, falling back to interpreting
    the wall clock as UTC whenever detection or conversion fails. -/
def convert_local_to_utc (tz : TzEnv) (dt : PyDateTime) (lat lon : ℚ) : PyDateTime :=
  match dt with
  | .aware u => .aware u
  | .naive w =>
    if tz.support then
      match detect_timezone tz lat lon with
      | none => .aware w
      | some z =>
        match tz.localize_to_utc z w with
        | .ok u => .aware u
        | .error _ => .aware w
    else .aware w

/-- `julian_day` (engine.py lines 125-133): naive datetimes are assumed UTC,
    then `swe.julday` (the `julday` oracle) maps the UTC instant to a UT
    Julian Day. -/
def julian_day (julday : ℚ → ℚ) (dt : PyDateTime) : ℚ :=
  julday dt.utcValue

/-! ## The result composer `compute_positions` -/

/-- The oracle bundle for the external `swisseph` library, plus the
    environment flag read by the house backend heuristic. -/
structure SweEnv where
  calc_ut : CalcUtFn
  houses : HousesFn
  get_ayanamsa_ut : AyanamsaFn
  julday : ℚ → ℚ
  env_ephe : Bool

/-- The dict returned by `compute_positions` (engine.py lines 289-307);
    `none` in an `Option` field models the key being absent. -/
structure ComputeResult where
  julian_day : ℚ
  planets : List (String × PositionRecord)
  backend : String
  timezone_detected : Option String
  input_interpreted_as_local : Option Bool
  houses : Option HouseData
  backend_details_houses : Option String
deriving Repr, DecidableEq

/-- Python truthiness of `detected_tz` at line 296 (`None` and `""` are falsy). -/
def pyTruthy : Option String → Bool
  | none => false
  | some s => !(s == "")

/-- The tail of `compute_positions` (engine.py lines 285-307): everything
after the canonical time has been resolved.  `is_naive` is `dt.tzinfo is
None` of the original input, needed for the diagnostic branch at line 299. -/
def compose_result (swe : SweEnv) (jd : ℚ) (lat lon : ℚ)
    (tropical include_houses : Bool) (hsys : String) (ayanamsa : Int)
    (detected_tz : Option String) (is_naive assume_local_time : Bool) :
    Except String ComputeResult :=
  let sidereal := !tropical
  match get_planetary_positions swe.calc_ut jd sidereal ayanamsa none none with
  | .error e => .error e
  | .ok (planets, backend_planets) =>
    let tzDiag : Option String × Option Bool :=
      if pyTruthy detected_tz then (detected_tz, some true)
      else if is_naive && !assume_local_time then (none, some false)
      else (none, none)
    if include_houses then
      match get_house_cusps swe.houses swe.get_ayanamsa_ut swe.env_ephe
          jd lat lon hsys sidereal ayanamsa with
      | .error e => .error e
      | .ok (houses, backend_houses) =>
        .ok { julian_day := jd, planets := planets, backend := backend_planets,
              timezone_detected := tzDiag.1,
              input_interpreted_as_local := tzDiag.2,
              houses := some houses,
              backend_details_houses :=
                if backend_houses ≠ "DEFAULT" then some backend_houses else none }
    else
      .ok { julian_day := jd, planets := planets, backend := backend_planets,
            timezone_detected := tzDiag.1,
            input_interpreted_as_local := tzDiag.2,
            houses := none, backend_details_houses := none }

/-- `compute_positions` (engine.py lines 248-307). -/
def compute_positions (swe : SweEnv) (tz : TzEnv) (dt : PyDateTime)
    (lat lon : ℚ) (tropical include_houses : Bool) (hsys : String)
    (ayanamsa : Int) (assume_local_time : Bool) : Except String ComputeResult :=
  let pair :=
    if dt.isNaive && assume_local_time then
      (convert_local_to_utc tz dt lat lon, detect_timezone tz lat lon)
    else
      ((match dt with | .naive w => .aware w | .aware u => .aware u), none)
  compose_result swe (julian_day swe.julday pair.1) lat lon tropical
    include_houses hsys ayanamsa pair.2 dt.isNaive assume_local_time

/-! ## The HTTP service layer (`service.py`) -/

/-- Oracle type for `datetime.fromisoformat` (after the `Z` replacement):
    `.error` is the `ValueError` path. -/
def FromIsoFn : Type := String → Except Unit PyDateTime

/-- `_parse_dt` (service.py lines 234-242): ISO 8601, naive treated as UTC. -/
def parse_dt (fromiso : FromIsoFn) (s : String) : Except String PyDateTime :=
  match fromiso s with
  | .error _ => .error "Invalid datetime format. Use ISO 8601."
  | .ok (.naive w) => .ok (.aware w)
  | .ok (.aware u) => .ok (.aware u)

/-- `_parse_dt_for_location` (service.py lines 245-264).  The `lat`/`lon`
    parameters of the Python function are unused in its body and omitted. -/
def parse_dt_for_location (fromiso : FromIsoFn) (s : String)
    (assume_local_time : Bool) : Except String PyDateTime :=
  match fromiso s with
  | .error _ => .error "Invalid datetime format. Use ISO 8601."
  | .ok (.aware u) => .ok (.aware u)
  | .ok (.naive w) => if assume_local_time then .ok (.naive w) else .ok (.aware w)

/-- Python's `str.lower()` restricted to its ASCII action, which is all the
    node-convention comparison needs. -/
def pyLower (s : String) : String := ⟨s.data.map Char.toLower⟩

/-- Rahu key selection (service.py line 136):
    `"True Node" if node.lower() == "true" else "Mean Node"`. -/
def rahu_node_key (node : String) : String :=
  if pyLower node == "true" then "True Node" else "Mean Node"

/-- A value of the `planets` map returned by `/v1/planets`: either a full
    position record, or the two-field `{"longitude", "latitude"}` dict built
    for Ketu (service.py line 143). -/
inductive BodyOut
  | full (r : PositionRecord)
  | point (longitude latitude : ℚ)
deriving Repr, DecidableEq

/-- The JSON object returned by `/v1/planets` (service.py lines 144-154). -/
structure PlanetsResponse where
  julian_day : ℚ
  tropical : Bool
  ayanamsa_id : Int
  backend : String
  planets : List (String × BodyOut)
  location_used : Option ℚ × Option ℚ
deriving Repr, DecidableEq

/-- `api_planets` (service.py lines 114-156). -/
def api_planets (swe : SweEnv) (fromiso : FromIsoFn) (dtStr : String)
    (tropical : Bool) (ayanamsa : Int) (node : String)
    (latitude longitude : Option ℚ) : Except String PlanetsResponse :=
  match parse_dt fromiso dtStr with
  | .error e => .error e
  | .ok dt =>
    let jd := julian_day swe.julday dt
    let sidereal := !tropical
    let latArg := if latitude.isSome && longitude.isSome then latitude else none
    let lonArg := if latitude.isSome && longitude.isSome then longitude else none
    match get_planetary_positions swe.calc_ut jd sidereal ayanamsa latArg lonArg with
    | .error e => .error e
    | .ok (planets, backend) =>
      match planets.lookup (rahu_node_key node) with
      | none => .error "Node computation failed"
      | some rahu =>
        let ketu_lon := pymod (rahu.longitude + 180) 360
        let planets_out :=
          (planets.filter
              (fun kv => !(kv.1 == "True Node" || kv.1 == "Mean Node"))).map
            (fun kv => (kv.1, BodyOut.full kv.2))
          ++ [("Rahu", BodyOut.full rahu), ("Ketu", BodyOut.point ketu_lon 0)]
        .ok { julian_day := jd, tropical := tropical, ayanamsa_id := ayanamsa,
              backend := backend, planets := planets_out,
              location_used := (latitude, longitude) }

/-- The JSON object returned by `/v1/houses` (service.py lines 197-229);
    `none` in an `Option` field models the key being absent. -/
structure HousesResponse where
  julian_day : ℚ
  tropical : Bool
  ayanamsa_id : Int
  houses : HouseData
  backend : Option String
  backend_details_houses : Option String
  timezone_detected : Option String
  input_interpreted_as_local : Option Bool
deriving Repr, DecidableEq

/-- The `use_new_engine = True` branch of `api_houses` (service.py
    lines 184-214): go through `compute_positions`. -/
def api_houses_new (swe : SweEnv) (tz : TzEnv) (dt_input : PyDateTime)
    (lat lon : ℚ) (hsys : String) (tropical : Bool) (ayanamsa : Int)
    (assume_local_time : Bool) : Except String HousesResponse :=
  match compute_positions swe tz dt_input lat lon tropical true hsys
      ayanamsa assume_local_time with
  | .error e => .error e
  | .ok result =>
    match result.houses with
    | none => .error "KeyError"
    | some h =>
      .ok { julian_day := result.julian_day, tropical := tropical,
            ayanamsa_id := ayanamsa, houses := h,
            backend := some result.backend,
            backend_details_houses := result.backend_details_houses,
            timezone_detected := result.timezone_detected,
            input_interpreted_as_local := result.input_interpreted_as_local }

/-- The fallback branch of `api_houses` (service.py lines 215-227): the
    original engine API. -/
def api_houses_old (swe : SweEnv) (dt_input : PyDateTime) (lat lon : ℚ)
    (hsys : String) (tropical : Bool) (ayanamsa : Int) :
    Except String HousesResponse :=
  let jd := julian_day swe.julday dt_input
  let sidereal := !tropical
  match get_house_cusps swe.houses swe.get_ayanamsa_ut swe.env_ephe
      jd lat lon hsys sidereal ayanamsa with
  | .error e => .error e
  | .ok (houses, backend) =>
    .ok { julian_day := jd, tropical := tropical, ayanamsa_id := ayanamsa,
          houses := houses, backend := some backend,
          backend_details_houses := none, timezone_detected := none,
          input_interpreted_as_local := none }

/-- `api_houses` (service.py lines 159-231).  With `assume_local_time` the
    timezone-aware parse is tried first and its failure falls back to the old
    parse (the bare `except` at line 177); otherwise the old path is used. -/
def api_houses (swe : SweEnv) (tz : TzEnv) (fromiso : FromIsoFn)
    (dtStr : String) (lat lon : ℚ) (hsys : String) (tropical : Bool)
    (ayanamsa : Int) (assume_local_time : Bool) : Except String HousesResponse :=
  if assume_local_time then
    match parse_dt_for_location fromiso dtStr assume_local_time with
    | .ok dt_input =>
      api_houses_new swe tz dt_input lat lon hsys tropical ayanamsa assume_local_time
    | .error _ =>
      match parse_dt fromiso dtStr with
      | .ok dt_input => api_houses_old swe dt_input lat lon hsys tropical ayanamsa
      | .error e => .error e
  else
    match parse_dt fromiso dtStr with
    | .ok dt_input => api_houses_old swe dt_input lat lon hsys tropical ayanamsa
    | .error e => .error e

/-! ## Claim theorems -/

/-- C1: with sidereal mode requested, house cusps and angles are the tropical
values with the ayanamsa offset (same Julian Day, same ayanamsa identifier)
subtracted from every cusp, the ascendant, the midheaven and the vertex
independently, each re-normalized into [0,360); without sidereal mode, the
tropical values are returned unadjusted. -/
theorem house_sidereal_correction
    (houses : HousesFn) (aya : AyanamsaFn) (env_ephe : Bool)
    (jd lat lon : ℚ) (hsys : String) (ayanamsa : Int)
    (hsys_byte : Char) (cusps ascmc : List ℚ) (a0 a1 : ℚ)
    (henc : encode_hsys hsys = .ok hsys_byte)
    (hraw : houses jd lat lon hsys_byte = (cusps, ascmc))
    (h0 : ascmc[0]? = some a0)
    (h1 : ascmc[1]? = some a1) :
    get_house_cusps houses aya env_ephe jd lat lon hsys false ayanamsa =
      .ok ({ cusps := cusps, ascendant := a0, mc := a1, vertex := ascmc[5]? },
           if env_ephe then "SWIEPH" else "DEFAULT")
    ∧
    get_house_cusps houses aya env_ephe jd lat lon hsys true ayanamsa =
      .ok ({ cusps := cusps.map (fun c => pymod (c - aya ayanamsa jd) 360),
             ascendant := pymod (a0 - aya ayanamsa jd) 360,
             mc := pymod (a1 - aya ayanamsa jd) 360,
             vertex := ascmc[5]?.map
               (fun v => pymod (v - aya ayanamsa jd) 360) },
           if env_ephe then "SWIEPH" else "DEFAULT") := by
  constructor <;>
    simp [get_house_cusps, henc, hraw, listGet, h0, h1, List.getElem?_map]

/-- Witness for C1 at a concrete oracle and input. -/
theorem house_sidereal_correction_witness :
    get_house_cusps (fun _ _ _ _ => ([100, 200], [50, 140, 0, 0, 0, 77]))
        (fun _ _ => 24) false 2451545 10 20 "P" false 1 =
      .ok ({ cusps := [100, 200], ascendant := 50, mc := 140, vertex := some 77 },
           "DEFAULT")
    ∧
    get_house_cusps (fun _ _ _ _ => ([100, 200], [50, 140, 0, 0, 0, 77]))
        (fun _ _ => 24) false 2451545 10 20 "P" true 1 =
      .ok ({ cusps := [100, 200].map (fun c => pymod (c - 24) 360),
             ascendant := pymod (50 - 24) 360, mc := pymod (140 - 24) 360,
             vertex := some (pymod (77 - 24) 360) }, "DEFAULT") := by
  have h := house_sidereal_correction
    (fun _ _ _ _ => ([100, 200], [50, 140, 0, 0, 0, 77])) (fun _ _ => 24)
    false 2451545 10 20 "P" 1 'P' [100, 200] [50, 140, 0, 0, 0, 77] 50 140
    rfl rfl rfl rfl
  simpa using h

/-- Every successful `calcPlanets` run over body list `l` yields exactly the
names of `l`, in order; otherwise it fails naming some body of `l`. -/
theorem calcPlanets_keys_or_error (calc_ut : CalcUtFn) (jd : ℚ) (flags : Nat)
    (l : List Nat) :
    (∃ xs bs, calcPlanets calc_ut jd flags l = .ok (xs, bs) ∧
      xs.map Prod.fst = l.map PLANET_NAMES) ∨
    (∃ p ∈ l, calcPlanets calc_ut jd flags l =
      .error ("Swiss Ephemeris calculation failed for planet " ++ PLANET_NAMES p)) := by
  induction l with
  | nil => exact Or.inl ⟨[], [], rfl, rfl⟩
  | cons p rest ih =>
    by_cases h : (swe_calc calc_ut jd p flags).ret < 0
    · refine Or.inr ⟨p, by simp, ?_⟩
      simp [calcPlanets, h]
    · rcases ih with ⟨xs, bs, heq, hkeys⟩ | ⟨q, hq, herr⟩
      · refine Or.inl ⟨(PLANET_NAMES p, positionRecordOf (swe_calc calc_ut jd p flags).pos) :: xs,
          (swe_calc calc_ut jd p flags).backend :: bs, ?_, by simp [hkeys]⟩
        simp [calcPlanets, h, heq]
      · refine Or.inr ⟨q, by simp [hq], ?_⟩
        simp [calcPlanets, h, herr]

/-- C3: the accessor makes exactly three attempts in order (default, then
file-based Swiss forced, then Moshier forced with the sidereal flag
stripped), and if all three fail the whole planetary request errors naming
the failed body; a successful result always contains all twelve bodies. -/
theorem accessor_chain_and_no_silent_omission (calc_ut : CalcUtFn) (jd : ℚ) :
    (∀ body flags,
      swe_calc calc_ut jd body flags =
        (let r1 := calc_ut jd body flags
         let r2 := calc_ut jd body (flags ||| SEFLG_SWIEPH)
         let r3 := calc_ut jd body (stripSidereal flags ||| SEFLG_MOSEPH)
         if 0 ≤ r1.ret then { pos := r1.pos, ret := r1.ret, backend := "SWIEPH" }
         else if 0 ≤ r2.ret then { pos := r2.pos, ret := r2.ret, backend := "SWIEPH" }
         else { pos := r3.pos, ret := r3.ret,
                backend := if 0 ≤ r3.ret then "MOSEPH" else "DEFAULT" }))
    ∧
    (∀ sidereal ayanamsa lat lon,
      (∃ m bk, get_planetary_positions calc_ut jd sidereal ayanamsa lat lon =
          .ok (m, bk) ∧
        m.map Prod.fst = ["Sun", "Moon", "Mercury", "Venus", "Mars", "Jupiter",
          "Saturn", "Uranus", "Neptune", "Pluto", "Mean Node", "True Node"]) ∨
      (∃ p ∈ PLANETS, get_planetary_positions calc_ut jd sidereal ayanamsa lat lon =
        .error ("Swiss Ephemeris calculation failed for planet " ++ PLANET_NAMES p))) := by
  constructor
  · intro body flags
    unfold swe_calc
    by_cases h1 : (calc_ut jd body flags).ret < 0
    · by_cases h2 : (calc_ut jd body (flags ||| SEFLG_SWIEPH)).ret < 0
      · simp [h1, h2, not_le.2, not_le_of_lt h1, not_le_of_lt h2]
      · simp [h1, h2, not_lt.1 h2, not_le_of_lt h1]
    · simp [h1, not_lt.1 h1]
  · intro sidereal ayanamsa lat lon
    rcases calcPlanets_keys_or_error calc_ut jd (planetFlags sidereal lat lon) PLANETS
      with ⟨xs, bs, heq, hkeys⟩ | ⟨p, hp, herr⟩
    · refine Or.inl ⟨xs, if "SWIEPH" ∈ bs then "SWIEPH"
        else if "MOSEPH" ∈ bs then "MOSEPH" else "DEFAULT", ?_, by simpa using hkeys⟩
      simp [get_planetary_positions, heq]
    · refine Or.inr ⟨p, hp, ?_⟩
      simp [get_planetary_positions, herr]

/-- C8: topocentric mode (the TOPOCTR flag together with the `swe.set_topo`
call) is enabled iff both latitude and longitude are supplied; with exactly
one coordinate the `set_topo` call is never made — the missing coordinate is
not zero-filled — and the computation is exactly the geocentric one. -/
theorem topocentric_iff_both_coordinates (sidereal : Bool) (lat lon : Option ℚ) :
    ((planetFlags sidereal lat lon) &&& SEFLG_TOPOCTR ≠ 0 ↔
      lat.isSome = true ∧ lon.isSome = true)
    ∧ (topoCall lat lon = none ↔ ¬(lat.isSome = true ∧ lon.isSome = true))
    ∧ (¬(lat.isSome = true ∧ lon.isSome = true) →
        ∀ (calc_ut : CalcUtFn) (jd : ℚ) (ayanamsa : Int),
          get_planetary_positions calc_ut jd sidereal ayanamsa lat lon =
            get_planetary_positions calc_ut jd sidereal ayanamsa none none) := by
  have htc : topoCall lat lon = none ↔ ¬(lat.isSome = true ∧ lon.isSome = true) := by
    cases lat <;> cases lon <;> simp [topoCall]
  refine ⟨?_, htc, ?_⟩
  · cases lat <;> cases lon <;> cases sidereal <;>
      simp [planetFlags, topoCall, SEFLG_SPEED, SEFLG_SIDEREAL, SEFLG_TOPOCTR] <;> decide
  · intro h calc_ut jd ayanamsa
    have hnone : topoCall lat lon = none := htc.2 h
    have hflags : planetFlags sidereal lat lon = planetFlags sidereal none none := by
      unfold planetFlags
      rw [hnone]
      simp [topoCall]
    simp [get_planetary_positions, hflags]

/-- Witness for C8 at `lat = some 10`, `lon = none`. -/
theorem topocentric_iff_both_coordinates_witness :
    ¬((planetFlags true (some 10) none) &&& SEFLG_TOPOCTR ≠ 0) ∧
    topoCall (some (10:ℚ)) none = none ∧
    get_planetary_positions (fun _ _ _ => ⟨⟨1, 2, 3, 4, 5, 6⟩, 0⟩) 2451545 true 1
        (some 10) none =
      get_planetary_positions (fun _ _ _ => ⟨⟨1, 2, 3, 4, 5, 6⟩, 0⟩) 2451545 true 1
        none none := by
  have h := topocentric_iff_both_coordinates true (some (10:ℚ)) none
  refine ⟨fun hb => by simpa using h.1.1 hb, h.2.1.2 (by simp), ?_⟩
  exact h.2.2 (by simp) (fun _ _ _ => ⟨⟨1, 2, 3, 4, 5, 6⟩, 0⟩) 2451545 1

/-- A successful association-list lookup locates a member pair. -/
theorem lookup_mem {n : String} {r : PositionRecord} :
    ∀ {l : List (String × PositionRecord)}, l.lookup n = some r → (n, r) ∈ l
  | [] => by simp [List.lookup]
  | (k, v) :: rest => by
    intro h
    by_cases he : n = k
    · subst he
      simp [List.lookup] at h
      simp [h]
    · have hbeq : (n == k) = false := beq_eq_false_iff_ne.mpr he
      have hstep : List.lookup n ((k, v) :: rest) = rest.lookup n := by
        rw [List.lookup_cons, hbeq]
      rw [hstep] at h
      exact List.mem_cons_of_mem _ (lookup_mem h)

/-- Every record in a successful `calcPlanets` output is built by
`positionRecordOf` from some accessor position. -/
theorem calcPlanets_mem_record (calc_ut : CalcUtFn) (jd : ℚ) (flags : Nat)
    (l : List Nat) (xs : List (String × PositionRecord)) (bs : List String)
    (h : calcPlanets calc_ut jd flags l = .ok (xs, bs)) :
    ∀ kv ∈ xs, ∃ p ∈ l,
      kv = (PLANET_NAMES p, positionRecordOf (swe_calc calc_ut jd p flags).pos) := by
  induction l generalizing xs bs with
  | nil =>
    simp only [calcPlanets, Except.ok.injEq, Prod.mk.injEq] at h
    obtain ⟨h1, _⟩ := h
    subst h1
    simp
  | cons p rest ih =>
    by_cases hret : (swe_calc calc_ut jd p flags).ret < 0
    · simp [calcPlanets, hret] at h
    · rcases hrec : calcPlanets calc_ut jd flags rest with e | ⟨ys, cs⟩
      · rw [calcPlanets, if_neg hret, hrec] at h
        simp at h
      · rw [calcPlanets, if_neg hret, hrec] at h
        simp only [Except.ok.injEq, Prod.mk.injEq] at h
        obtain ⟨hxs, _⟩ := h
        subst hxs
        intro kv hkv
        rcases List.mem_cons.1 hkv with hkv | hkv
        · exact ⟨p, by simp, hkv⟩
        · obtain ⟨q, hq, hkveq⟩ := ih ys cs hrec kv hkv
          exact ⟨q, by simp [hq], hkveq⟩

/-- C9: in every returned position map the retrograde flag is true iff the
longitude speed is strictly negative; and between the tropical and the
sidereal run at the same canonical time, any body whose longitude speed
agrees across the two runs (the sidereal offset does not change speeds)
carries the identical flag. -/
theorem retrograde_iff_negative_speed (calc_ut : CalcUtFn) (jd : ℚ)
    (ayanamsa : Int) (lat lon : Option ℚ)
    (mt ms : List (String × PositionRecord)) (bkt bks : String)
    (ht : get_planetary_positions calc_ut jd false ayanamsa lat lon = .ok (mt, bkt))
    (hs : get_planetary_positions calc_ut jd true ayanamsa lat lon = .ok (ms, bks)) :
    (∀ kv ∈ mt, kv.2.is_retrograde = true ↔ kv.2.speed_longitude < 0)
    ∧ (∀ kv ∈ ms, kv.2.is_retrograde = true ↔ kv.2.speed_longitude < 0)
    ∧ (∀ n rt rs, mt.lookup n = some rt → ms.lookup n = some rs →
        rt.speed_longitude = rs.speed_longitude →
        rt.is_retrograde = rs.is_retrograde) := by
  have key : ∀ (sid : Bool) m bk,
      get_planetary_positions calc_ut jd sid ayanamsa lat lon = .ok (m, bk) →
      ∀ kv ∈ m, kv.2.is_retrograde = true ↔ kv.2.speed_longitude < 0 := by
    intro sid m bk h kv hkv
    rcases hcp : calcPlanets calc_ut jd (planetFlags sid lat lon) PLANETS
      with e | ⟨xs, bs⟩
    · simp [get_planetary_positions, hcp] at h
    · simp only [get_planetary_positions, hcp, Except.ok.injEq, Prod.mk.injEq] at h
      obtain ⟨hm, _⟩ := h
      subst hm
      obtain ⟨p, _, hkveq⟩ :=
        calcPlanets_mem_record calc_ut jd _ PLANETS xs bs hcp kv hkv
      subst hkveq
      simp [positionRecordOf]
  refine ⟨key false mt bkt ht, key true ms bks hs, ?_⟩
  intro n rt rs hlt hls hspd
  have h1 := key false mt bkt ht (n, rt) (lookup_mem hlt)
  have h2 := key true ms bks hs (n, rs) (lookup_mem hls)
  rw [Bool.eq_iff_iff, h1, h2, hspd]

/-- A constant `swe.calc_ut` oracle that always succeeds with a fixed
position vector whose longitude speed is negative. -/
def retroCalc : CalcUtFn := fun _ _ _ => ⟨⟨1, 2, 3, -4, 5, 6⟩, 0⟩

/-- The position map produced by `retroCalc`. -/
def retroMap : List (String × PositionRecord) :=
  PLANETS.map (fun p => (PLANET_NAMES p, ⟨1, 2, 3, -4, 5, 6, true⟩))

theorem retroCalc_eval (sid : Bool) :
    get_planetary_positions retroCalc 2451545 sid 1 none none =
      .ok (retroMap, "SWIEPH") := by
  norm_num [get_planetary_positions, calcPlanets, swe_calc, retroCalc, retroMap,
    positionRecordOf, PLANETS, PLANET_NAMES, planetFlags, topoCall]

/-- Witness for C9 at the concrete oracle `retroCalc`. -/
theorem retrograde_iff_negative_speed_witness :
    (∀ kv ∈ retroMap, kv.2.is_retrograde = true ↔ kv.2.speed_longitude < 0)
    ∧ (∀ kv ∈ retroMap, kv.2.is_retrograde = true ↔ kv.2.speed_longitude < 0)
    ∧ (∀ n rt rs, retroMap.lookup n = some rt → retroMap.lookup n = some rs →
        rt.speed_longitude = rs.speed_longitude →
        rt.is_retrograde = rs.is_retrograde) :=
  retrograde_iff_negative_speed retroCalc 2451545 1 none none
    retroMap retroMap "SWIEPH" "SWIEPH" (retroCalc_eval false) (retroCalc_eval true)

/-- Unfolding of a successful `api_planets` run (service.py lines 123-154):
the response keeps the filtered body map and appends Rahu (the chosen node
record) and Ketu (its antipode with zero latitude). -/
theorem api_planets_ok (swe : SweEnv) (fromiso : FromIsoFn) (dtStr : String)
    (tropical : Bool) (ayanamsa : Int) (node : String)
    (latitude longitude : Option ℚ) (dt : PyDateTime)
    (m : List (String × PositionRecord)) (bk : String) (rahu : PositionRecord)
    (hparse : parse_dt fromiso dtStr = .ok dt)
    (hgpp : get_planetary_positions swe.calc_ut (julian_day swe.julday dt)
        (!tropical) ayanamsa
        (if latitude.isSome && longitude.isSome then latitude else none)
        (if latitude.isSome && longitude.isSome then longitude else none) =
        .ok (m, bk))
    (hrahu : m.lookup (rahu_node_key node) = some rahu) :
    api_planets swe fromiso dtStr tropical ayanamsa node latitude longitude =
      .ok { julian_day := julian_day swe.julday dt, tropical := tropical,
            ayanamsa_id := ayanamsa, backend := bk,
            planets :=
              (m.filter
                  (fun kv => !(kv.1 == "True Node" || kv.1 == "Mean Node"))).map
                (fun kv => (kv.1, BodyOut.full kv.2))
              ++ [("Rahu", BodyOut.full rahu),
                  ("Ketu", BodyOut.point (pymod (rahu.longitude + 180) 360) 0)],
            location_used := (latitude, longitude) } := by
  simp only [api_planets, hparse, hgpp, hrahu]

/-- C7: for both node conventions the planets response maps "Rahu" to the
chosen node variant's record, maps "Ketu" to exactly
(Rahu longitude + 180) mod 360 with latitude 0, and carries neither raw node
name. -/
theorem rahu_ketu_resolution (swe : SweEnv) (fromiso : FromIsoFn) (dtStr : String)
    (tropical : Bool) (ayanamsa : Int) (node : String)
    (latitude longitude : Option ℚ) (dt : PyDateTime)
    (r0 r1 r2 r3 r4 r5 r6 r7 r8 r9 rMean rTrue : PositionRecord) (bk : String)
    (hparse : parse_dt fromiso dtStr = .ok dt)
    (hgpp : get_planetary_positions swe.calc_ut (julian_day swe.julday dt)
        (!tropical) ayanamsa
        (if latitude.isSome && longitude.isSome then latitude else none)
          (if latitude.isSome && longitude.isSome then longitude else none) =
        .ok ([("Sun", r0), ("Moon", r1), ("Mercury", r2), ("Venus", r3),
              ("Mars", r4), ("Jupiter", r5), ("Saturn", r6), ("Uranus", r7),
              ("Neptune", r8), ("Pluto", r9), ("Mean Node", rMean),
              ("True Node", rTrue)], bk)) :
    ∃ resp, api_planets swe fromiso dtStr tropical ayanamsa node latitude longitude =
        .ok resp
      ∧ resp.planets.lookup "Rahu" =
          some (BodyOut.full (if pyLower node == "true" then rTrue else rMean))
      ∧ resp.planets.lookup "Ketu" =
          some (BodyOut.point
            (pymod ((if pyLower node == "true" then rTrue else rMean).longitude + 180) 360) 0)
      ∧ resp.planets.lookup "True Node" = none
      ∧ resp.planets.lookup "Mean Node" = none
      ∧ "True Node" ∉ resp.planets.map Prod.fst
      ∧ "Mean Node" ∉ resp.planets.map Prod.fst := by
  by_cases hnode : pyLower node == "true"
  · have hkey : rahu_node_key node = "True Node" := by
      simp [rahu_node_key, hnode]
    have hrahu : ([("Sun", r0), ("Moon", r1), ("Mercury", r2), ("Venus", r3),
        ("Mars", r4), ("Jupiter", r5), ("Saturn", r6), ("Uranus", r7),
        ("Neptune", r8), ("Pluto", r9), ("Mean Node", rMean),
        ("True Node", rTrue)] :
        List (String × PositionRecord)).lookup (rahu_node_key node) = some rTrue := by
      rw [hkey]
      simp [List.lookup]
    refine ⟨_, api_planets_ok swe fromiso dtStr tropical ayanamsa node latitude
      longitude dt _ bk rTrue hparse hgpp hrahu, ?_, ?_, ?_, ?_, ?_, ?_⟩ <;>
      simp [hnode, List.lookup]
  · have hkey : rahu_node_key node = "Mean Node" := by
      simp [rahu_node_key, hnode]
    have hrahu : ([("Sun", r0), ("Moon", r1), ("Mercury", r2), ("Venus", r3),
        ("Mars", r4), ("Jupiter", r5), ("Saturn", r6), ("Uranus", r7),
        ("Neptune", r8), ("Pluto", r9), ("Mean Node", rMean),
        ("True Node", rTrue)] :
        List (String × PositionRecord)).lookup (rahu_node_key node) = some rMean := by
      rw [hkey]
      simp [List.lookup]
    refine ⟨_, api_planets_ok swe fromiso dtStr tropical ayanamsa node latitude
      longitude dt _ bk rMean hparse hgpp hrahu, ?_, ?_, ?_, ?_, ?_, ?_⟩ <;>
      simp [hnode, List.lookup]

/-- A concrete `SweEnv` built from `retroCalc` for witnesses. -/
def retroEnv : SweEnv :=
  { calc_ut := retroCalc, houses := fun _ _ _ _ => ([30], [5, 15]),
    get_ayanamsa_ut := fun _ _ => 24, julday := fun _ => 2451545,
    env_ephe := false }

/-- A parse oracle that accepts everything as an aware UTC instant. -/
def awareParse : FromIsoFn := fun _ => .ok (.aware 0)

/-- Witness for C7 at concrete oracles, with the mean-node convention. -/
theorem rahu_ketu_resolution_witness :
    ∃ resp, api_planets retroEnv awareParse "2000-01-01T12:00:00" false 1 "mean"
        none none = .ok resp
      ∧ resp.planets.lookup "Rahu" =
          some (BodyOut.full (if pyLower "mean" == "true"
            then (⟨1, 2, 3, -4, 5, 6, true⟩ : PositionRecord)
            else ⟨1, 2, 3, -4, 5, 6, true⟩))
      ∧ resp.planets.lookup "Ketu" =
          some (BodyOut.point
            (pymod ((if pyLower "mean" == "true"
              then (⟨1, 2, 3, -4, 5, 6, true⟩ : PositionRecord)
              else ⟨1, 2, 3, -4, 5, 6, true⟩).longitude + 180) 360) 0)
      ∧ resp.planets.lookup "True Node" = none
      ∧ resp.planets.lookup "Mean Node" = none
      ∧ "True Node" ∉ resp.planets.map Prod.fst
      ∧ "Mean Node" ∉ resp.planets.map Prod.fst :=
  rahu_ketu_resolution retroEnv awareParse "2000-01-01T12:00:00" false 1 "mean"
    none none (.aware 0)
    ⟨1, 2, 3, -4, 5, 6, true⟩ ⟨1, 2, 3, -4, 5, 6, true⟩ ⟨1, 2, 3, -4, 5, 6, true⟩
    ⟨1, 2, 3, -4, 5, 6, true⟩ ⟨1, 2, 3, -4, 5, 6, true⟩ ⟨1, 2, 3, -4, 5, 6, true⟩
    ⟨1, 2, 3, -4, 5, 6, true⟩ ⟨1, 2, 3, -4, 5, 6, true⟩ ⟨1, 2, 3, -4, 5, 6, true⟩
    ⟨1, 2, 3, -4, 5, 6, true⟩ ⟨1, 2, 3, -4, 5, 6, true⟩ ⟨1, 2, 3, -4, 5, 6, true⟩
    "SWIEPH" rfl
    (by simpa [retroMap, PLANETS, PLANET_NAMES] using retroCalc_eval true)

/-- C10: the node-convention parameter selects the true node exactly when it
case-insensitively equals "true"; any other string selects the mean node and
is never rejected — with a well-formed planets map the request still
succeeds. -/
theorem node_convention_fallback (node : String) :
    (rahu_node_key node = "True Node" ↔ pyLower node = "true")
    ∧ (pyLower node ≠ "true" → rahu_node_key node = "Mean Node")
    ∧ (∀ (swe : SweEnv) (fromiso : FromIsoFn) (dtStr : String) (tropical : Bool)
        (ayanamsa : Int) (latitude longitude : Option ℚ) (dt : PyDateTime)
        (m : List (String × PositionRecord)) (bk : String) (rahu : PositionRecord),
        parse_dt fromiso dtStr = .ok dt →
        get_planetary_positions swe.calc_ut (julian_day swe.julday dt)
          (!tropical) ayanamsa
          (if latitude.isSome && longitude.isSome then latitude else none)
          (if latitude.isSome && longitude.isSome then longitude else none) =
          .ok (m, bk) →
        m.lookup (rahu_node_key node) = some rahu →
        ∃ resp, api_planets swe fromiso dtStr tropical ayanamsa node latitude
          longitude = .ok resp) := by
  refine ⟨?_, ?_, ?_⟩
  · constructor
    · intro h
      by_contra hne
      have : rahu_node_key node = "Mean Node" := by
        simp [rahu_node_key, hne]
      rw [this] at h
      exact absurd h (by decide)
    · intro h
      simp [rahu_node_key, h]
  · intro h
    simp [rahu_node_key, h]
  · intro swe fromiso dtStr tropical ayanamsa latitude longitude dt m bk rahu
      hparse hgpp hrahu
    exact ⟨_, api_planets_ok swe fromiso dtStr tropical ayanamsa node latitude
      longitude dt m bk rahu hparse hgpp hrahu⟩

/-- Witness for C10 at the typo string "truee" (falls back to the mean node,
request not rejected) and at "TRUE" (case-insensitive true-node match). -/
theorem node_convention_fallback_witness :
    (rahu_node_key "TRUE" = "True Node" ↔ pyLower "TRUE" = "true")
    ∧ rahu_node_key "truee" = "Mean Node"
    ∧ ∃ resp, api_planets retroEnv awareParse "2000-01-01T12:00:00" false 1
        "truee" none none = .ok resp := by
  refine ⟨(node_convention_fallback "TRUE").1, ?_, ?_⟩
  · exact (node_convention_fallback "truee").2.1 (by decide)
  · exact (node_convention_fallback "truee").2.2 retroEnv awareParse
      "2000-01-01T12:00:00" false 1 none none (.aware 0) retroMap "SWIEPH"
      ⟨1, 2, 3, -4, 5, 6, true⟩ rfl (retroCalc_eval true)
      (by
        have hk : rahu_node_key "truee" = "Mean Node" := by decide
        simp [retroMap, PLANETS, PLANET_NAMES, hk, List.lookup])

/-- A `swe.calc_ut` oracle modelling a backend where only the forced-Moshier
method works: any call without the MOSEPH bit fails, and the Moshier call —
which always has the sidereal flag stripped by `_swe_calc` — returns the
tropical position with longitude 100. -/
def moshierOnly : CalcUtFn := fun _ _ flags =>
  if flags &&& SEFLG_MOSEPH ≠ 0 then ⟨⟨100, 1, 2, 3, 0, 0⟩, 0⟩
  else ⟨⟨0, 0, 0, 0, 0, 0⟩, -1⟩

/-- The concrete ayanamsa oracle used alongside `moshierOnly`. -/
def moshAya : AyanamsaFn := fun _ _ => 24

/-- The position map `moshierOnly` produces: every body carries the tropical
longitude 100. -/
def moshMap : List (String × PositionRecord) :=
  PLANETS.map (fun p => (PLANET_NAMES p, ⟨100, 1, 2, 3, 0, 0, false⟩))

theorem mosh_swe_calc (jd : ℚ) (b : Nat) (sid : Bool) :
    swe_calc moshierOnly jd b (planetFlags sid none none) =
      ⟨⟨100, 1, 2, 3, 0, 0⟩, 0, "MOSEPH"⟩ := by
  cases sid <;> rfl

theorem moshierOnly_eval (sid : Bool) :
    get_planetary_positions moshierOnly 2451545 sid 1 none none =
      .ok (moshMap, "MOSEPH") := by
  norm_num [get_planetary_positions, calcPlanets, mosh_swe_calc, moshMap,
    positionRecordOf, PLANETS, PLANET_NAMES]

/-- C2 (refuted — code bug): when the accessor degrades to the analytic
Moshier fallback, which strips the sidereal flag, `get_planetary_positions`
applies no downstream ayanamsa correction: the sidereal-mode run returns the
same longitude 100 as the tropical run even though the ayanamsa is 24, so
sidereal ≠ (tropical − ayanamsa) mod 360 on the fallback path. -/
theorem sidereal_fallback_not_corrected :
    get_planetary_positions moshierOnly 2451545 true 1 none none =
      .ok (moshMap, "MOSEPH")
    ∧ get_planetary_positions moshierOnly 2451545 false 1 none none =
      .ok (moshMap, "MOSEPH")
    ∧ (moshMap.lookup "Sun").map PositionRecord.longitude = some 100
    ∧ moshAya 1 2451545 = 24
    ∧ (100 : ℚ) ≠ pymod (100 - moshAya 1 2451545) 360 := by
  refine ⟨moshierOnly_eval true, moshierOnly_eval false, ?_, rfl, ?_⟩
  · simp [moshMap, PLANETS, PLANET_NAMES, List.lookup]
  · norm_num [pymod, moshAya]

/-- A timezone environment whose lookup succeeds for no coordinates. -/
def noCoverageTz : TzEnv :=
  { support := true, timezone_at := fun _ _ => none,
    localize_to_utc := fun _ _ => .error () }

/-- C5 (counterexample — claim refuted): with a naive instant,
local-time inference enabled, and a failing timezone lookup, the request
succeeds with the instant interpreted as UTC, but the response carries NO
diagnostic of the fallback: both `timezone_detected` and
`input_interpreted_as_local` are absent. -/
theorem tz_fallback_not_recorded :
    detect_timezone noCoverageTz 10 20 = none
    ∧ compute_positions retroEnv noCoverageTz (.naive 5) 10 20 false false "P" 1
        true =
      .ok { julian_day := 2451545, planets := retroMap, backend := "SWIEPH",
            timezone_detected := none, input_interpreted_as_local := none,
            houses := none, backend_details_houses := none } := by
  refine ⟨rfl, ?_⟩
  simp [compute_positions, compose_result, convert_local_to_utc,
    detect_timezone, noCoverageTz, retroEnv, julian_day, PyDateTime.utcValue,
    PyDateTime.isNaive, pyTruthy, retroCalc_eval true]

/-- C5 (amended): with a naive instant, local-time inference enabled and a
failing timezone lookup, the instant is interpreted as UTC and the request
still succeeds — but nothing is recorded in the response diagnostics: both
diagnostic fields are absent. -/
theorem tz_lookup_failure_utc_fallback (swe : SweEnv) (tz : TzEnv)
    (w lat lon : ℚ) (tropical : Bool) (hsys : String) (ayanamsa : Int)
    (m : List (String × PositionRecord)) (bk : String) (d : HouseData)
    (hbk : String)
    (hdetect : detect_timezone tz lat lon = none)
    (hgpp : get_planetary_positions swe.calc_ut (swe.julday w) (!tropical)
        ayanamsa none none = .ok (m, bk))
    (hhc : get_house_cusps swe.houses swe.get_ayanamsa_ut swe.env_ephe
        (swe.julday w) lat lon hsys (!tropical) ayanamsa = .ok (d, hbk)) :
    compute_positions swe tz (.naive w) lat lon tropical true hsys ayanamsa
        true =
      .ok { julian_day := swe.julday w, planets := m, backend := bk,
            timezone_detected := none, input_interpreted_as_local := none,
            houses := some d,
            backend_details_houses :=
              if hbk ≠ "DEFAULT" then some hbk else none } := by
  have hconv : convert_local_to_utc tz (.naive w) lat lon = .aware w := by
    rcases htz : tz.support with _ | _ <;>
      simp [convert_local_to_utc, htz, hdetect]
  simp [compute_positions, compose_result, hconv, hdetect, julian_day,
    PyDateTime.utcValue, PyDateTime.isNaive, pyTruthy, hgpp, hhc]

/-- Witness for C5 (amended) at concrete oracles. -/
theorem tz_lookup_failure_utc_fallback_witness :
    compute_positions retroEnv noCoverageTz (.naive 7) 10 20 false true "P" 1
        true =
      .ok { julian_day := retroEnv.julday 7, planets := retroMap,
            backend := "SWIEPH", timezone_detected := none,
            input_interpreted_as_local := none,
            houses := some { cusps := [pymod (30 - 24) 360],
                             ascendant := pymod (5 - 24) 360,
                             mc := pymod (15 - 24) 360, vertex := none },
            backend_details_houses :=
              if "DEFAULT" ≠ "DEFAULT" then some "DEFAULT" else none } := by
  have hhc : get_house_cusps retroEnv.houses retroEnv.get_ayanamsa_ut
      retroEnv.env_ephe (retroEnv.julday 7) 10 20 "P" (!false) 1 =
      .ok ({ cusps := [pymod (30 - 24) 360], ascendant := pymod (5 - 24) 360,
             mc := pymod (15 - 24) 360, vertex := none }, "DEFAULT") := by
    have he : encode_hsys "P" = .ok 'P' := rfl
    simp [get_house_cusps, he, retroEnv, listGet]
  exact tz_lookup_failure_utc_fallback retroEnv noCoverageTz 7 10 20 false "P" 1
    retroMap "SWIEPH"
    { cusps := [pymod (30 - 24) 360], ascendant := pymod (5 - 24) 360,
      mc := pymod (15 - 24) 360, vertex := none }
    "DEFAULT" rfl (retroCalc_eval true) hhc

/-- C4 (amended): the service performs no range validation on latitude or
longitude and no validation of the house-system code: with local-time
inference disabled, any parseable request — whatever its coordinates and
(ASCII) house-system code — proceeds to the house computation and returns
its result. -/
theorem no_coordinate_or_hsys_validation (swe : SweEnv) (tz : TzEnv)
    (fromiso : FromIsoFn) (dtStr : String) (lat lon : ℚ) (hsys : String)
    (tropical : Bool) (ayanamsa : Int) (dt : PyDateTime) (d : HouseData)
    (bk : String)
    (hparse : parse_dt fromiso dtStr = .ok dt)
    (hhc : get_house_cusps swe.houses swe.get_ayanamsa_ut swe.env_ephe
        (julian_day swe.julday dt) lat lon hsys (!tropical) ayanamsa =
        .ok (d, bk)) :
    api_houses swe tz fromiso dtStr lat lon hsys tropical ayanamsa false =
      .ok { julian_day := julian_day swe.julday dt, tropical := tropical,
            ayanamsa_id := ayanamsa, houses := d, backend := some bk,
            backend_details_houses := none, timezone_detected := none,
            input_interpreted_as_local := none } := by
  simp [api_houses, hparse, api_houses_old, hhc]

/-- C4 (counterexample — claim refuted): a request with latitude 91 (outside
±90), longitude 200 (outside ±180) and unrecognized house-system code "Z" is
not rejected: the house computation runs at those values and its result is
returned. -/
theorem out_of_range_request_not_rejected :
    (90 : ℚ) < 91 ∧ (180 : ℚ) < 200 ∧
    api_houses retroEnv noCoverageTz awareParse "2000-01-01T12:00:00" 91 200
        "Z" false 1 false =
      .ok { julian_day := 2451545, tropical := false, ayanamsa_id := 1,
            houses := { cusps := [pymod (30 - 24) 360],
                        ascendant := pymod (5 - 24) 360,
                        mc := pymod (15 - 24) 360, vertex := none },
            backend := some "DEFAULT", backend_details_houses := none,
            timezone_detected := none, input_interpreted_as_local := none } := by
  refine ⟨by norm_num, by norm_num, ?_⟩
  have he : encode_hsys "Z" = .ok 'Z' := rfl
  simp [api_houses, parse_dt, awareParse, api_houses_old, get_house_cusps, he,
    retroEnv, listGet, julian_day, PyDateTime.utcValue]

/-- Witness for C4 (amended) at an out-of-range input. -/
theorem no_coordinate_or_hsys_validation_witness :
    api_houses retroEnv noCoverageTz awareParse "1999-12-31T00:00:00" 91 200
        "Z" true 1 false =
      .ok { julian_day := 2451545, tropical := true, ayanamsa_id := 1,
            houses := { cusps := [30], ascendant := 5, mc := 15,
                        vertex := none },
            backend := some "DEFAULT", backend_details_houses := none,
            timezone_detected := none, input_interpreted_as_local := none } := by
  have hhc : get_house_cusps retroEnv.houses retroEnv.get_ayanamsa_ut
      retroEnv.env_ephe (julian_day retroEnv.julday (.aware 0)) 91 200 "Z"
      (!true) 1 =
      .ok ({ cusps := [30], ascendant := 5, mc := 15, vertex := none },
           "DEFAULT") := by
    have he : encode_hsys "Z" = .ok 'Z' := rfl
    simp [get_house_cusps, he, retroEnv, listGet]
  have h := no_coordinate_or_hsys_validation retroEnv noCoverageTz awareParse
    "1999-12-31T00:00:00" 91 200 "Z" true 1 (.aware 0)
    { cusps := [30], ascendant := 5, mc := 15, vertex := none }
    "DEFAULT" rfl hhc
  simpa [julian_day, PyDateTime.utcValue, retroEnv] using h

/-- The position served by `_swe_calc` is one of the three attempts' raw
positions. -/
theorem swe_calc_pos_cases (calc_ut : CalcUtFn) (jd : ℚ) (body flags : Nat) :
    (swe_calc calc_ut jd body flags).pos = (calc_ut jd body flags).pos ∨
    (swe_calc calc_ut jd body flags).pos =
      (calc_ut jd body (flags ||| SEFLG_SWIEPH)).pos ∨
    (swe_calc calc_ut jd body flags).pos =
      (calc_ut jd body (stripSidereal flags ||| SEFLG_MOSEPH)).pos := by
  unfold swe_calc
  by_cases h1 : (calc_ut jd body flags).ret < 0
  · by_cases h2 : (calc_ut jd body (flags ||| SEFLG_SWIEPH)).ret < 0
    · simp [h1, h2]
    · simp [h1, h2]
  · simp [h1]

/-- If the raw backend always returns longitudes in [0,360), so does every
record of a successful planetary result. -/
theorem gpp_longitude_range (calc_ut : CalcUtFn) (jd : ℚ) (sid : Bool)
    (ayanamsa : Int) (lat lon : Option ℚ)
    (m : List (String × PositionRecord)) (bk : String)
    (Hc : ∀ (j : ℚ) (b f : Nat),
      0 ≤ (calc_ut j b f).pos.lon ∧ (calc_ut j b f).pos.lon < 360)
    (h : get_planetary_positions calc_ut jd sid ayanamsa lat lon = .ok (m, bk)) :
    ∀ kv ∈ m, 0 ≤ kv.2.longitude ∧ kv.2.longitude < 360 := by
  intro kv hkv
  rcases hcp : calcPlanets calc_ut jd (planetFlags sid lat lon) PLANETS
    with e | ⟨xs, bs⟩
  · simp [get_planetary_positions, hcp] at h
  · simp only [get_planetary_positions, hcp, Except.ok.injEq, Prod.mk.injEq] at h
    obtain ⟨hm, _⟩ := h
    subst hm
    obtain ⟨p, _, hkveq⟩ :=
      calcPlanets_mem_record calc_ut jd _ PLANETS xs bs hcp kv hkv
    subst hkveq
    rcases swe_calc_pos_cases calc_ut jd p (planetFlags sid lat lon)
      with hp | hp | hp <;>
      simp only [positionRecordOf, hp] <;> exact Hc jd p _

/-- If the raw house routine returns values in [0,360), every field of a
successful `get_house_cusps` result is in [0,360), in both frames. -/
theorem get_house_cusps_range (houses : HousesFn) (aya : AyanamsaFn)
    (env_ephe : Bool) (jd lat lon : ℚ) (hsys : String) (sid : Bool)
    (ayanamsa : Int) (d : HouseData) (bk : String)
    (Hh : ∀ (c : Char),
      (∀ x ∈ (houses jd lat lon c).1, 0 ≤ x ∧ x < 360) ∧
      (∀ x ∈ (houses jd lat lon c).2, 0 ≤ x ∧ x < 360))
    (h : get_house_cusps houses aya env_ephe jd lat lon hsys sid ayanamsa =
      .ok (d, bk)) :
    (∀ c ∈ d.cusps, 0 ≤ c ∧ c < 360) ∧
    (0 ≤ d.ascendant ∧ d.ascendant < 360) ∧
    (0 ≤ d.mc ∧ d.mc < 360) ∧
    (∀ v, d.vertex = some v → 0 ≤ v ∧ v < 360) := by
  unfold get_house_cusps at h
  rcases henc : encode_hsys hsys with e | hb
  · rw [henc] at h
    exact absurd h (by simp)
  · rw [henc] at h
    obtain ⟨Hcu, Has⟩ := Hh hb
    rcases hrw : houses jd lat lon hb with ⟨cusps, ascmc⟩
    simp only [hrw] at h Hcu Has
    by_cases hsid : sid = true
    · rw [hsid] at h
      simp only [if_true] at h
      have hfr : ∀ x, 0 ≤ pymod (x - aya ayanamsa jd) 360 ∧
          pymod (x - aya ayanamsa jd) 360 < 360 := by
        intro x
        exact ⟨pymod_nonneg _ _ (by norm_num), pymod_lt _ _ (by norm_num)⟩
      rcases h0 : (List.map (fun a => pymod (a - aya ayanamsa jd) 360) ascmc)[0]?
        with _ | a0
      · simp only [listGet, h0] at h
        exact absurd h (by simp)
      · rcases h1 : (List.map (fun a => pymod (a - aya ayanamsa jd) 360) ascmc)[1]?
          with _ | a1
        · simp only [listGet, h0, h1] at h
          exact absurd h (by simp)
        · simp only [listGet, h0, h1, Except.ok.injEq, Prod.mk.injEq] at h
          obtain ⟨hd, _⟩ := h
          subst hd
          refine ⟨?_, ?_, ?_, ?_⟩
          · intro c hc
            obtain ⟨x, _, hx⟩ := List.mem_map.1 hc
            rw [← hx]
            exact hfr x
          · obtain ⟨x, _, hx⟩ := List.mem_map.1 (List.getElem?_mem h0)
            rw [← hx]
            exact hfr x
          · obtain ⟨x, _, hx⟩ := List.mem_map.1 (List.getElem?_mem h1)
            rw [← hx]
            exact hfr x
          · intro v hv
            simp only at hv
            obtain ⟨x, _, hx⟩ := List.mem_map.1 (List.getElem?_mem hv)
            rw [← hx]
            exact hfr x
    · rw [Bool.not_eq_true] at hsid
      rw [hsid] at h
      simp only [Bool.false_eq_true, if_false] at h
      rcases h0 : ascmc[0]? with _ | a0
      · simp only [listGet, h0] at h
        exact absurd h (by simp)
      · rcases h1 : ascmc[1]? with _ | a1
        · simp only [listGet, h0, h1] at h
          exact absurd h (by simp)
        · simp only [listGet, h0, h1, Except.ok.injEq, Prod.mk.injEq] at h
          obtain ⟨hd, _⟩ := h
          subst hd
          refine ⟨?_, ?_, ?_, ?_⟩
          · intro c hc
            exact Hcu c hc
          · exact Has a0 (List.getElem?_mem h0)
          · exact Has a1 (List.getElem?_mem h1)
          · intro v hv
            simp only at hv
            exact Has v (List.getElem?_mem hv)

/-- Range invariant for the composer tail, for any resolved canonical time. -/
theorem compose_result_range (swe : SweEnv) (jd lat lon : ℚ)
    (tropical include_houses : Bool) (hsys : String) (ayanamsa : Int)
    (detected_tz : Option String) (is_naive assume_local_time : Bool)
    (r : ComputeResult)
    (Hcalc : ∀ (j : ℚ) (b f : Nat),
      0 ≤ (swe.calc_ut j b f).pos.lon ∧ (swe.calc_ut j b f).pos.lon < 360)
    (Hhouses : ∀ (j la lo : ℚ) (c : Char),
      (∀ x ∈ (swe.houses j la lo c).1, 0 ≤ x ∧ x < 360) ∧
      (∀ x ∈ (swe.houses j la lo c).2, 0 ≤ x ∧ x < 360))
    (h : compose_result swe jd lat lon tropical include_houses hsys ayanamsa
      detected_tz is_naive assume_local_time = .ok r) :
    (∀ kv ∈ r.planets, 0 ≤ kv.2.longitude ∧ kv.2.longitude < 360) ∧
    (∀ hd, r.houses = some hd →
      (∀ c ∈ hd.cusps, 0 ≤ c ∧ c < 360) ∧
      (0 ≤ hd.ascendant ∧ hd.ascendant < 360) ∧
      (0 ≤ hd.mc ∧ hd.mc < 360) ∧
      (∀ v, hd.vertex = some v → 0 ≤ v ∧ v < 360)) := by
  simp only [compose_result] at h
  rcases hgpp : get_planetary_positions swe.calc_ut jd (!tropical) ayanamsa
    none none with e | ⟨planets, bkp⟩
  · rw [hgpp] at h
    exact absurd h (by simp)
  · rw [hgpp] at h
    by_cases hih : include_houses = true
    · rw [hih] at h
      simp only [if_true] at h
      rcases hhc : get_house_cusps swe.houses swe.get_ayanamsa_ut swe.env_ephe
        jd lat lon hsys (!tropical) ayanamsa with e | ⟨hd0, bkh⟩
      · rw [hhc] at h
        exact absurd h (by simp)
      · rw [hhc] at h
        simp only [Except.ok.injEq] at h
        subst h
        refine ⟨?_, ?_⟩
        · intro kv hkv
          exact gpp_longitude_range swe.calc_ut jd (!tropical) ayanamsa
            none none planets bkp Hcalc hgpp kv hkv
        · intro hd hhd
          simp only [Option.some.injEq] at hhd
          subst hhd
          exact get_house_cusps_range swe.houses swe.get_ayanamsa_ut
            swe.env_ephe jd lat lon hsys (!tropical) ayanamsa hd0 bkh
            (Hhouses jd lat lon) hhc
    · rw [Bool.not_eq_true] at hih
      rw [hih] at h
      simp only [Bool.false_eq_true, if_false, Except.ok.injEq] at h
      subst h
      refine ⟨?_, ?_⟩
      · intro kv hkv
        exact gpp_longitude_range swe.calc_ut jd (!tropical) ayanamsa
          none none planets bkp Hcalc hgpp kv hkv
      · intro hd hhd
        simp at hhd

/-- C6: whenever the raw library returns normalized longitudes, every
longitude in a successful result — every per-body ecliptic longitude and
every cusp, ascendant, midheaven and vertex — lies in [0,360), in both
tropical and sidereal mode, whichever backend served each computation. -/
theorem all_longitudes_normalized (swe : SweEnv) (tz : TzEnv) (dt : PyDateTime)
    (lat lon : ℚ) (tropical include_houses : Bool) (hsys : String)
    (ayanamsa : Int) (assume_local_time : Bool) (r : ComputeResult)
    (Hcalc : ∀ (j : ℚ) (b f : Nat),
      0 ≤ (swe.calc_ut j b f).pos.lon ∧ (swe.calc_ut j b f).pos.lon < 360)
    (Hhouses : ∀ (j la lo : ℚ) (c : Char),
      (∀ x ∈ (swe.houses j la lo c).1, 0 ≤ x ∧ x < 360) ∧
      (∀ x ∈ (swe.houses j la lo c).2, 0 ≤ x ∧ x < 360))
    (h : compute_positions swe tz dt lat lon tropical include_houses hsys
      ayanamsa assume_local_time = .ok r) :
    (∀ kv ∈ r.planets, 0 ≤ kv.2.longitude ∧ kv.2.longitude < 360) ∧
    (∀ hd, r.houses = some hd →
      (∀ c ∈ hd.cusps, 0 ≤ c ∧ c < 360) ∧
      (0 ≤ hd.ascendant ∧ hd.ascendant < 360) ∧
      (0 ≤ hd.mc ∧ hd.mc < 360) ∧
      (∀ v, hd.vertex = some v → 0 ≤ v ∧ v < 360)) := by
  simp only [compute_positions] at h
  exact compose_result_range swe _ lat lon tropical include_houses hsys
    ayanamsa _ dt.isNaive assume_local_time r Hcalc Hhouses h

/-- The concrete result `retroEnv` produces for the C6 witness run. -/
def rangeResult : ComputeResult :=
  { julian_day := 2451545, planets := retroMap, backend := "SWIEPH",
    timezone_detected := none, input_interpreted_as_local := none,
    houses := some { cusps := [pymod (30 - 24) 360],
                     ascendant := pymod (5 - 24) 360,
                     mc := pymod (15 - 24) 360, vertex := none },
    backend_details_houses := none }

/-- Witness for C6 at concrete oracles satisfying the range hypotheses. -/
theorem all_longitudes_normalized_witness :
    (∀ kv ∈ rangeResult.planets, 0 ≤ kv.2.longitude ∧ kv.2.longitude < 360) ∧
    (∀ hd, rangeResult.houses = some hd →
      (∀ c ∈ hd.cusps, 0 ≤ c ∧ c < 360) ∧
      (0 ≤ hd.ascendant ∧ hd.ascendant < 360) ∧
      (0 ≤ hd.mc ∧ hd.mc < 360) ∧
      (∀ v, hd.vertex = some v → 0 ≤ v ∧ v < 360)) := by
  have hcalc : ∀ (j : ℚ) (b f : Nat),
      0 ≤ (retroEnv.calc_ut j b f).pos.lon ∧
      (retroEnv.calc_ut j b f).pos.lon < 360 := by
    intro j b f
    norm_num [retroEnv, retroCalc]
  have hhouses : ∀ (j la lo : ℚ) (c : Char),
      (∀ x ∈ (retroEnv.houses j la lo c).1, 0 ≤ x ∧ x < 360) ∧
      (∀ x ∈ (retroEnv.houses j la lo c).2, 0 ≤ x ∧ x < 360) := by
    intro j la lo c
    constructor
    · intro x hx
      simp [retroEnv] at hx
      rw [hx]
      norm_num
    · intro x hx
      simp [retroEnv] at hx
      rcases hx with rfl | rfl <;> norm_num
  have hrun : compute_positions retroEnv noCoverageTz (.aware 3) 10 20 false
      true "P" 1 false = .ok rangeResult := by
    have he : encode_hsys "P" = .ok 'P' := rfl
    simp [compute_positions, compose_result, julian_day, PyDateTime.utcValue,
      PyDateTime.isNaive, pyTruthy, retroEnv, retroCalc_eval true,
      get_house_cusps, he, listGet, rangeResult]
  exact all_longitudes_normalized retroEnv noCoverageTz (.aware 3) 10 20 false
    true "P" 1 false rangeResult hcalc hhouses hrun
